import Mathlib

/-!
Verification of the crawl orchestration engine: a shallow embedding of
`rate_limiter.py`, `failure_handler.py`, `base_crawler.py` and
`scheduler/scheduler.py`, with theorems settling the spec's testable
properties.  Python floats are modelled as `ℚ`, Python dicts as
insertion-ordered association lists with unique-key update semantics,
wall-clock reads and random draws as explicit parameters.
-/

set_option autoImplicit false

namespace Crawl

/-! ## Python dict model: insertion-ordered association lists -/

/-- `k in d` for a Python dict. -/
def dictContains {α : Type} (l : List (String × α)) (k : String) : Bool :=
  l.any (fun p => p.1 == k)

/-- `d.get(k)` / `d[k]` lookup. -/
def dictGet {α : Type} (l : List (String × α)) (k : String) : Option α :=
  (l.find? (fun p => p.1 == k)).map (fun p => p.2)

/-- `d[k] = v`: update in place if the key exists, else append. -/
def dictInsert {α : Type} (l : List (String × α)) (k : String) (v : α) :
    List (String × α) :=
  if dictContains l k then l.map (fun p => if p.1 == k then (k, v) else p)
  else l ++ [(k, v)]

/-- `d.pop(k, None)`: drop the entry with the given key. -/
def dictRemove {α : Type} (l : List (String × α)) (k : String) :
    List (String × α) :=
  l.filter (fun p => p.1 != k)

/-- `base.update(upd)` for a string-valued dict. -/
def dictMerge (base upd : List (String × String)) : List (String × String) :=
  upd.foldl (fun acc p => dictInsert acc p.1 p.2) base

/-- Python `needle in haystack` on lists of characters. -/
def listContainsSub (needle : List Char) : List Char → Bool
  | [] => List.isPrefixOf needle []
  | c :: t => List.isPrefixOf needle (c :: t) || listContainsSub needle t

/-- Python `needle in haystack` on strings. -/
def containsSub (hay needle : String) : Bool :=
  listContainsSub needle.data hay.data

/-- Python `str.lower()`, character by character. -/
def toLowerStr (s : String) : String :=
  String.mk (s.data.map Char.toLower)

/-- The suffix after the first occurrence of `sep`, if any. -/
def afterSep (sep : List Char) : List Char → Option (List Char)
  | [] => none
  | c :: t =>
    if List.isPrefixOf sep (c :: t) then some ((c :: t).drop sep.length)
    else afterSep sep t

/-- Split a character list on a separator character. -/
def splitOnChar (sep : Char) : List Char → List (List Char)
  | [] => [[]]
  | c :: t =>
    let r := splitOnChar sep t
    if c = sep then [] :: r
    else
      match r with
      | [] => [[c]]
      | h :: rest => (c :: h) :: rest

/-! ## `failure_handler.py` -/

/-- `ErrorCategory` enum (failure_handler.py lines 20-28). -/
inductive ErrorCategory where
  | NETWORK
  | SERVER
  | CLIENT
  | RATE_LIMIT
  | PARSING
  | PERMISSION
  | UNKNOWN
deriving DecidableEq, Repr

/-- The enum member's `.value` string. -/
def ErrorCategory.value : ErrorCategory → String
  | .NETWORK => "network_error"
  | .SERVER => "server_error"
  | .CLIENT => "client_error"
  | .RATE_LIMIT => "rate_limit"
  | .PARSING => "parsing_error"
  | .PERMISSION => "permission_error"
  | .UNKNOWN => "unknown_error"

/-- `ErrorCategory(value)` lookup; `none` models the `ValueError` on an
unknown value string. -/
def ErrorCategory.fromValue (s : String) : Option ErrorCategory :=
  if s == "network_error" then some .NETWORK
  else if s == "server_error" then some .SERVER
  else if s == "client_error" then some .CLIENT
  else if s == "rate_limit" then some .RATE_LIMIT
  else if s == "parsing_error" then some .PARSING
  else if s == "permission_error" then some .PERMISSION
  else if s == "unknown_error" then some .UNKNOWN
  else none

/-- `FailedTask` dataclass (failure_handler.py lines 30-42).  Timestamps
are seconds as `ℚ`; `extra_data` is modelled as a string-valued dict. -/
structure FailedTask where
  url : String
  site_name : String
  error_category : ErrorCategory
  error_message : String
  status_code : Option Nat := none
  retry_count : Nat := 0
  first_failed_at : ℚ := 0
  last_failed_at : ℚ := 0
  next_retry_at : Option ℚ := none
  extra_data : List (String × String) := []
deriving DecidableEq, Repr

/-- `RetryPolicy` (failure_handler.py lines 59-112); the per-category
tables are total functions since the default dicts cover every member. -/
structure RetryPolicy where
  max_retries : ErrorCategory → Nat
  base_delays : ErrorCategory → ℚ × ℚ
  backoff_factor : ℚ := 2
  jitter : ℚ := 1/10
  max_delay : ℚ := 3600

/-- Default `max_retries` table (failure_handler.py lines 81-89). -/
def defaultMaxRetries : ErrorCategory → Nat
  | .NETWORK => 5
  | .SERVER => 3
  | .CLIENT => 1
  | .RATE_LIMIT => 8
  | .PARSING => 2
  | .PERMISSION => 1
  | .UNKNOWN => 3

/-- Default `base_delays` table (failure_handler.py lines 96-104). -/
def defaultBaseDelays : ErrorCategory → ℚ × ℚ
  | .NETWORK => (5, 15)
  | .SERVER => (10, 30)
  | .CLIENT => (5, 10)
  | .RATE_LIMIT => (30, 60)
  | .PARSING => (5, 15)
  | .PERMISSION => (60, 120)
  | .UNKNOWN => (10, 20)

/-- `RetryPolicy()` with all defaults. -/
def RetryPolicy.mkDefault : RetryPolicy :=
  { max_retries := defaultMaxRetries
    base_delays := defaultBaseDelays }

/-- `RetryPolicy.should_retry` (failure_handler.py lines 114-126). -/
def RetryPolicy.should_retry (p : RetryPolicy) (task : FailedTask) : Bool :=
  task.retry_count < p.max_retries task.error_category

/-- `RetryPolicy.calculate_next_retry_time` (failure_handler.py lines
128-156).  The two `random.uniform` draws are passed in explicitly:
`base_sample` stands for `uniform(min_delay, max_delay)` and
`jitter_unit` for the jitter draw scaled to `[-1, 1]`. -/
def RetryPolicy.calculate_next_retry_time (p : RetryPolicy) (task : FailedTask)
    (now base_sample jitter_unit : ℚ) : ℚ :=
  let delay := base_sample * p.backoff_factor ^ task.retry_count
  let jitter_amount := delay * p.jitter
  let delay := delay + jitter_unit * jitter_amount
  let delay := min delay p.max_delay
  now + delay

/-- An error argument: a Python exception (class name and message) or a
plain string message. -/
inductive PyError where
  | exc (className : String) (msg : String)
  | str (msg : String)
deriving DecidableEq, Repr

/-- Network signature check on the lowercased class name
(failure_handler.py lines 217-219). -/
def hasNetworkSignature (error_name : String) : Bool :=
  ["timeout", "connection", "socket", "ssl", "dns", "network"].any
    (fun k => containsSub error_name k)

/-- Parsing signature check on the lowercased class name
(failure_handler.py lines 223-224). -/
def hasParsingSignature (error_name : String) : Bool :=
  ["parse", "json", "decode", "syntax", "value", "attribute", "key", "index"].any
    (fun k => containsSub error_name k)

/-- The fall-through tail of `classify_error` (failure_handler.py lines
213-229): inspect the lowercased exception class name. -/
def classify_error_by_nature (error_class_name : String) : ErrorCategory :=
  let error_name := toLowerStr error_class_name
  if hasNetworkSignature error_name then .NETWORK
  else if hasParsingSignature error_name then .PARSING
  else .UNKNOWN

/-- `FailureHandler.classify_error` (failure_handler.py lines 187-229).
`error_class_name` is `error.__class__.__name__`. -/
def classify_error (error_class_name : String) (status_code : Option Nat) :
    ErrorCategory :=
  match status_code with
  | some sc =>
    if sc = 429 then .RATE_LIMIT
    else if sc = 403 then .PERMISSION
    else if 400 ≤ sc ∧ sc < 500 then .CLIENT
    else if 500 ≤ sc ∧ sc < 600 then .SERVER
    else classify_error_by_nature error_class_name
  | none => classify_error_by_nature error_class_name

/-- The message/category computation at the top of `register_failure`
(failure_handler.py lines 253-269): exceptions go through
`classify_error`; plain strings are classified by status code only. -/
def register_classify (error : PyError) (status_code : Option Nat) :
    String × ErrorCategory :=
  match error with
  | .exc cls msg => (cls ++ ": " ++ msg, classify_error cls status_code)
  | .str s =>
    (s,
      match status_code with
      | some sc =>
        if sc = 429 then ErrorCategory.RATE_LIMIT
        else if sc = 403 then ErrorCategory.PERMISSION
        else if 400 ≤ sc ∧ sc < 500 then ErrorCategory.CLIENT
        else if 500 ≤ sc ∧ sc < 600 then ErrorCategory.SERVER
        else ErrorCategory.UNKNOWN
      | none => ErrorCategory.UNKNOWN)

/-- `FailureHandler` state (failure_handler.py lines 158-185).
`has_callback` records whether `on_permanent_failure` was supplied;
`callback_log` observes its invocations (the URL of each task it was
called on, in order). -/
structure FailureHandler where
  retry_policy : RetryPolicy
  has_callback : Bool := false
  pending_tasks : List (String × FailedTask) := []
  permanent_failures : List (String × FailedTask) := []
  callback_log : List String := []

/-- `FailureHandler.register_failure` (failure_handler.py lines 231-317).
`now` is the `time.time()` reading, `base_sample`/`jitter_unit` the
random draws used when a next retry time is computed. -/
def FailureHandler.register_failure (h : FailureHandler)
    (url site_name : String) (error : PyError) (status_code : Option Nat)
    (extra_data : List (String × String)) (now base_sample jitter_unit : ℚ) :
    FailedTask × FailureHandler :=
  let mc := register_classify error status_code
  let error_message := mc.1
  let error_category := mc.2
  let task :=
    match dictGet h.pending_tasks url with
    | some t =>
      { t with
        error_category := error_category
        error_message := error_message
        status_code := status_code
        retry_count := t.retry_count + 1
        last_failed_at := now
        extra_data := dictMerge t.extra_data extra_data }
    | none =>
      { url := url
        site_name := site_name
        error_category := error_category
        error_message := error_message
        status_code := status_code
        retry_count := 0
        first_failed_at := now
        last_failed_at := now
        next_retry_at := none
        extra_data := extra_data }
  if h.retry_policy.should_retry task then
    let task := { task with
      next_retry_at :=
        some (h.retry_policy.calculate_next_retry_time task now base_sample jitter_unit) }
    (task, { h with pending_tasks := dictInsert h.pending_tasks url task })
  else
    (task,
      { h with
        pending_tasks := dictRemove (dictInsert h.pending_tasks url task) url
        permanent_failures := dictInsert h.permanent_failures url task
        callback_log :=
          if h.has_callback then h.callback_log ++ [url] else h.callback_log })

/-- `FailureHandler.mark_task_success` (failure_handler.py lines 342-357). -/
def FailureHandler.mark_task_success (h : FailureHandler) (url : String) :
    Bool × FailureHandler :=
  if dictContains h.pending_tasks url then
    (true, { h with pending_tasks := dictRemove h.pending_tasks url })
  else
    (false, h)

/-! ### Persistence (`save_to_file` / `load_from_file`)

The JSON file holds each task via `FailedTask.to_dict`, which renders the
second-precision timestamps as `"%Y-%m-%d %H:%M:%S"` strings.  That
rendering is in bijection with whole seconds, so a serialized timestamp
is modelled as `⌊t⌋ : ℤ` and `load_from_file`'s `strptime(...).timestamp()`
as the coercion back to `ℚ`. -/

/-- The serialized form of one task (failure_handler.py lines 44-57). -/
structure TaskDict where
  url : String
  site_name : String
  error_category : String
  error_message : String
  status_code : Option Nat
  retry_count : Nat
  first_failed_at : ℤ
  last_failed_at : ℤ
  next_retry_at : Option ℤ
  extra_data : List (String × String)
deriving DecidableEq, Repr

/-- `FailedTask.to_dict` (failure_handler.py lines 44-57).  Note the
Python truthiness test `if self.next_retry_at`: a stored `0.0` is
serialized as `None`. -/
def FailedTask.to_dict (t : FailedTask) : TaskDict :=
  { url := t.url
    site_name := t.site_name
    error_category := t.error_category.value
    error_message := t.error_message
    status_code := t.status_code
    retry_count := t.retry_count
    first_failed_at := ⌊t.first_failed_at⌋
    last_failed_at := ⌊t.last_failed_at⌋
    next_retry_at :=
      match t.next_retry_at with
      | some x => if x = 0 then none else some ⌊x⌋
      | none => none
    extra_data := t.extra_data }

/-- The structured snapshot written by `save_to_file` (failure_handler.py
lines 369-375). -/
structure SavedData where
  pending_tasks : List (String × TaskDict)
  permanent_failures : List (String × TaskDict)
  saved_at : ℤ
deriving DecidableEq, Repr

/-- `FailureHandler.save_to_file`, restricted to the data it writes
(failure_handler.py lines 359-384). -/
def FailureHandler.save_data (h : FailureHandler) (now : ℚ) : SavedData :=
  { pending_tasks := h.pending_tasks.map (fun p => (p.1, p.2.to_dict))
    permanent_failures := h.permanent_failures.map (fun p => (p.1, p.2.to_dict))
    saved_at := ⌊now⌋ }

/-- Reconstruction of one task in `load_from_file` (failure_handler.py
lines 406-430 for pending entries, 433-453 for permanent entries, which
do not restore `next_retry_at`).  `none` models the exception raised by
`ErrorCategory(value)` on an unknown value string. -/
def taskFromDict (d : TaskDict) (restore_next : Bool) : Option FailedTask :=
  match ErrorCategory.fromValue d.error_category with
  | none => none
  | some cat =>
    some
      { url := d.url
        site_name := d.site_name
        error_category := cat
        error_message := d.error_message
        status_code := d.status_code
        retry_count := d.retry_count
        first_failed_at := (d.first_failed_at : ℚ)
        last_failed_at := (d.last_failed_at : ℚ)
        next_retry_at :=
          if restore_next then d.next_retry_at.map (fun n => (n : ℚ)) else none
        extra_data := d.extra_data }

/-- Load a serialized task map, failing on the first malformed entry. -/
def loadTaskList (restore_next : Bool) :
    List (String × TaskDict) → Option (List (String × FailedTask))
  | [] => some []
  | (k, d) :: rest =>
    match taskFromDict d restore_next, loadTaskList restore_next rest with
    | some t, some ts => some ((k, t) :: ts)
    | _, _ => none

/-- `FailureHandler.load_from_file` on already-parsed snapshot data
(failure_handler.py lines 386-459): clears both maps and reconstructs
them from the snapshot; `none` models the caught exception path that
returns `False`. -/
def FailureHandler.load_from_data (h : FailureHandler) (d : SavedData) :
    Option FailureHandler :=
  match loadTaskList true d.pending_tasks, loadTaskList false d.permanent_failures with
  | some pend, some perm =>
    some { h with pending_tasks := pend, permanent_failures := perm }
  | _, _ => none

/-- The per-task data claimed to survive a persistence round trip: map
key, retry count and error category. -/
def taskKeyInfo (p : String × FailedTask) : String × Nat × ErrorCategory :=
  (p.1, p.2.retry_count, p.2.error_category)

/-! ## `rate_limiter.py` -/

/-- `DomainStatus` dataclass (rate_limiter.py lines 18-28). -/
structure DomainStatus where
  last_access : ℚ := 0
  failure_count : Nat := 0
  success_count : Nat := 0
  current_delay : ℚ := 0
  total_requests : Nat := 0
  total_success : Nat := 0
  is_throttled : Bool := false
  throttled_until : Option ℚ := none
deriving DecidableEq, Repr

/-- `RateLimiterManager` (rate_limiter.py lines 31-86): configuration
fields with the constructor defaults, the lazily-created
`domain_status` defaultdict as a total function, the custom per-domain
delay dict, and the global sliding window. -/
structure RateLimiterManager where
  default_domain_delay : ℚ := 3
  min_domain_delay : ℚ := 1
  max_domain_delay : ℚ := 20
  global_rate_limit : Nat := 10
  global_time_window : ℚ := 60
  failure_backoff_factor : ℚ := 2
  success_recovery_factor : ℚ := 4/5
  max_failures_before_throttle : Nat := 5
  throttle_duration_minutes : ℚ := 5
  domain_status : String → DomainStatus := fun _ => {}
  domain_delay_settings : List (String × ℚ) := []
  global_request_timestamps : List ℚ := []

/-- Write one domain's status back into the defaultdict. -/
def RateLimiterManager.setStatus (m : RateLimiterManager) (domain : String)
    (st : DomainStatus) : RateLimiterManager :=
  { m with domain_status := fun d => if d == domain then st else m.domain_status d }

/-- `extract_domain` (rate_limiter.py lines 88-99): `urlparse(url).netloc`,
for the common absolute-URL shape — the text between `"://"` and the
next `/`, `?` or `#`; empty when the URL has no scheme separator. -/
def extract_domain (url : String) : String :=
  match afterSep "://".data url.data with
  | some rest =>
    String.mk (rest.takeWhile (fun c => c ≠ '/' && c ≠ '?' && c ≠ '#'))
  | none => ""

/-- `get_domain_delay` (rate_limiter.py lines 127-143). -/
def RateLimiterManager.get_domain_delay (m : RateLimiterManager)
    (domain : String) : ℚ :=
  match dictGet m.domain_delay_settings domain with
  | some d => d
  | none => m.default_domain_delay

/-- `update_domain_status` (rate_limiter.py lines 173-215).  `now` is the
`datetime.now()` reading used for the throttle expiry. -/
def RateLimiterManager.update_domain_status (m : RateLimiterManager)
    (domain : String) (success : Bool) (now : ℚ) : RateLimiterManager :=
  let status := m.domain_status domain
  let status := { status with total_requests := status.total_requests + 1 }
  if success then
    let status := { status with
      total_success := status.total_success + 1
      success_count := status.success_count + 1
      failure_count := 0 }
    let status :=
      if 0 < status.current_delay then
        { status with
          current_delay :=
            max m.min_domain_delay (status.current_delay * m.success_recovery_factor) }
      else status
    m.setStatus domain status
  else
    let status := { status with
      failure_count := status.failure_count + 1
      success_count := 0 }
    let status :=
      if status.current_delay ≤ 0 then
        { status with current_delay := m.get_domain_delay domain }
      else
        { status with
          current_delay :=
            min m.max_domain_delay (status.current_delay * m.failure_backoff_factor) }
    let status :=
      if m.max_failures_before_throttle ≤ status.failure_count then
        { status with
          is_throttled := true
          throttled_until := some (now + 60 * m.throttle_duration_minutes) }
      else status
    m.setStatus domain status

/-- `is_domain_throttled` (rate_limiter.py lines 145-171); resets the
throttle state when the expiry has passed. -/
def RateLimiterManager.is_domain_throttled (m : RateLimiterManager)
    (domain : String) (now : ℚ) : Bool × RateLimiterManager :=
  let status := m.domain_status domain
  if status.is_throttled then
    match status.throttled_until with
    | some tu =>
      if now < tu then (true, m)
      else
        (false,
          m.setStatus domain
            { status with is_throttled := false, throttled_until := none, failure_count := 0 })
    | none => (false, m)
  else (false, m)

/-- `check_global_rate_limit` (rate_limiter.py lines 217-242): prune the
window, and either report the wait until the oldest entry expires
(recording nothing) or record this call's timestamp.  (With
`global_rate_limit = 0` and an empty window the source would raise on
`min([])`; that configuration is never constructed.) -/
def RateLimiterManager.check_global_rate_limit (m : RateLimiterManager)
    (now : ℚ) : (Bool × Option ℚ) × RateLimiterManager :=
  let cutoff := now - m.global_time_window
  let ts := m.global_request_timestamps.filter (fun t => decide (cutoff < t))
  let m := { m with global_request_timestamps := ts }
  let atCapacity : Option ℚ :=
    match ts with
    | [] => none
    | t :: rest =>
      if m.global_rate_limit ≤ ts.length then
        let oldest := (t :: rest).foldl min t
        let wait := oldest + m.global_time_window - now
        if 0 < wait then some wait else none
      else none
  match atCapacity with
  | some wait => ((true, some wait), m)
  | none =>
    ((false, none), { m with global_request_timestamps := ts ++ [now] })

/-- `wait_for_rate_limit` (rate_limiter.py lines 244-291).  `now` is the
`time.time()` reading at entry; the `await asyncio.sleep(wait)` is
modelled by the clock advancing to `now + wait` at the post-sleep
`time.time()` that becomes `last_access`.  Returns the wait and the
updated manager. -/
def RateLimiterManager.wait_for_rate_limit (m : RateLimiterManager)
    (url : String) (now : ℚ) : ℚ × RateLimiterManager :=
  let domain := extract_domain url
  let thr := m.is_domain_throttled domain now
  let m := thr.2
  let throttleWait : Option ℚ :=
    if thr.1 then
      match (m.domain_status domain).throttled_until with
      | some tu => if 0 < tu - now then some (tu - now) else none
      | none => none
    else none
  match throttleWait with
  | some w => (w, m)
  | none =>
    let status := m.domain_status domain
    let domain_delay := max status.current_delay (m.get_domain_delay domain)
    let elapsed := now - status.last_access
    let domain_wait := max 0 (domain_delay - elapsed)
    let gc := m.check_global_rate_limit now
    let global_wait := gc.1.2
    let m := gc.2
    let wait_time := max domain_wait (global_wait.getD 0)
    let m := m.setStatus domain { (m.domain_status domain) with last_access := now + wait_time }
    (wait_time, m)

/-- `report_request_result` (rate_limiter.py lines 293-308). -/
def RateLimiterManager.report_request_result (m : RateLimiterManager)
    (url : String) (success : Bool) (status_code : Option Nat) (now : ℚ) :
    RateLimiterManager :=
  let domain := extract_domain url
  let m := m.update_domain_status domain success now
  if status_code = some 403 ∨ status_code = some 429 ∨ status_code = some 503 then
    m.update_domain_status domain false now
  else m

/-- A sequence of `report_request_result` calls: each entry carries the
success flag, the optional status code and the clock reading. -/
def RateLimiterManager.reportSeq (m : RateLimiterManager) (url : String) :
    List (Bool × Option Nat × ℚ) → RateLimiterManager
  | [] => m
  | (success, sc, now) :: rest =>
    (m.report_request_result url success sc now).reportSeq url rest

/-! ## `scheduler/scheduler.py` -/

/-- One APScheduler job as created by `schedule_site`
(scheduler.py lines 139-148): id, display name and cron trigger. -/
structure CronJob where
  id : String
  name : String
  trigger : String
deriving DecidableEq, Repr

/-- `CrawlerScheduler` state (scheduler.py lines 40-49): the
APScheduler job store and the `site_jobs` dict. -/
structure CrawlerScheduler where
  jobs : List CronJob := []
  site_jobs : List (String × String) := []
deriving DecidableEq, Repr

/-- The keys of `config.SITE_CONFIG` (config.py lines 102-447), used by
the `site_name not in config_module.SITE_CONFIG` validation. -/
def siteConfigKeys : List String :=
  ["udn", "tvbs", "setn", "pixnet", "ettoday", "chinatimes", "mobile01",
   "businessToday", "Newtalk", "ftvtv", "thenewslens", "ctee", "tvbs_woman",
   "gonews", "ftnn", "ebc", "businessweekly", "sportsv", "metadata"]

/-- `CronTrigger.from_crontab` accepts exactly five whitespace-separated
fields; only the field count is modelled. -/
def isValidCron (expr : String) : Bool :=
  ((splitOnChar ' ' expr.data).filter (fun f => ¬ f.isEmpty)).length == 5

/-- `CrawlerScheduler.schedule_site` (scheduler.py lines 104-156).
`now` is the `int(time.time())` reading used to build the job id.  The
existing-job check reads `site_name in self.site_jobs` (line 128) while
line 150 stores `self.site_jobs[job.id] = site_name`, exactly as in the
source. -/
def CrawlerScheduler.schedule_site (s : CrawlerScheduler)
    (site_name cron_expression : String) (replace_existing : Bool)
    (now : Nat) : Bool × CrawlerScheduler :=
  if ¬ siteConfigKeys.contains site_name then (false, s)
  else if dictContains s.site_jobs site_name ∧ ¬ replace_existing then (false, s)
  else
    -- removal of the job recorded under the site name (lines 132-135);
    -- the `site_jobs` entry itself is not deleted here, as in the source
    let s1 :=
      if dictContains s.site_jobs site_name then
        match dictGet s.site_jobs site_name with
        | some old_job_id =>
          { s with jobs := s.jobs.filter (fun j => j.id ≠ old_job_id) }
        | none => s
      else s
    if isValidCron cron_expression then
      let jid := "crawler_" ++ site_name ++ "_" ++ toString now
      let job : CronJob :=
        { id := jid, name := "Crawl " ++ site_name, trigger := cron_expression }
      -- add_job with replace_existing=True: replace a job with the same
      -- id, else append
      let jobs :=
        if s1.jobs.any (fun j => j.id == jid) then
          s1.jobs.map (fun j => if j.id == jid then job else j)
        else s1.jobs ++ [job]
      (true, { jobs := jobs, site_jobs := dictInsert s1.site_jobs jid site_name })
    else (false, s1)

/-! ## `base_crawler.py`: `run_full_scraper`

The Fetcher, Repository, Queue and Indexer are external collaborators;
they are modelled by a `CrawlEnv` oracle.  `fetch step url` is the
outcome of the `step`-th `extract_article` call of the session (`none`
when every in-band attempt failed, `some a` when a page with
`a.next_level_links` was scraped); `ready round` is the list returned by
`get_ready_tasks` at the `round`-th `process_retry_queue` call, before
truncation to `max_items`. -/

/-- A scraped page, reduced to the field the frontier loop consumes. -/
structure Article where
  next_level_links : List String
deriving Repr

/-- The external world of one crawl session. -/
structure CrawlEnv where
  initial_links : List String
  fetch : Nat → String → Option Article
  ready : Nat → List String

/-- The session state of `run_full_scraper` (base_crawler.py lines
508-516) plus the oracle cursors. -/
structure CrawlState where
  seen_urls : List String := []
  queue : List String := []
  depth : Nat := 0
  total_scraped : Nat := 0
  fetchStep : Nat := 0
  retryRound : Nat := 0
deriving Repr

/-- One `extract_article` invocation, resolved through the oracle. -/
def extractArticleCall (env : CrawlEnv) (s : CrawlState) (url : String) :
    Option Article × CrawlState :=
  (env.fetch s.fetchStep url, { s with fetchStep := s.fetchStep + 1 })

/-- `BaseCrawler.process_retry_queue` (base_crawler.py lines 466-498):
fetch up to `max_items` ready tasks through `extract_article` and count
the successes. -/
def processRetryQueue (env : CrawlEnv) (s : CrawlState) (max_items : Nat) :
    Nat × CrawlState :=
  let tasks := (env.ready s.retryRound).take max_items
  let s := { s with retryRound := s.retryRound + 1 }
  tasks.foldl
    (fun acc url =>
      let r := extractArticleCall env acc.2 url
      (if r.1.isSome then acc.1 + 1 else acc.1, r.2))
    (0, s)

/-- The inner `for link in queue` loop of `run_full_scraper`
(base_crawler.py lines 527-548), returning the updated state and the
accumulated `next_queue`. -/
def crawlLinks (env : CrawlEnv) (max_pages : Nat) :
    List String → CrawlState × List String → CrawlState × List String
  | [], acc => acc
  | link :: rest, (s, next_queue) =>
    if s.seen_urls.contains link ∨ max_pages ≤ s.total_scraped then
      crawlLinks env max_pages rest (s, next_queue)
    else
      let s := { s with seen_urls := s.seen_urls ++ [link] }
      let r := extractArticleCall env s link
      let s := r.2
      match r.1 with
      | some article =>
        let s := { s with total_scraped := s.total_scraped + 1 }
        let next_queue := next_queue ++ article.next_level_links
        if max_pages ≤ s.total_scraped then (s, next_queue)
        else crawlLinks env max_pages rest (s, next_queue)
      | none =>
        if max_pages ≤ s.total_scraped then (s, next_queue)
        else crawlLinks env max_pages rest (s, next_queue)

/-- The two-line drain pattern of `run_full_scraper` (base_crawler.py
lines 524-525 and 582-583):
`retry_processed = await self.process_retry_queue(max_items=min(5, max_pages - total_scraped))`
followed by `total_scraped += retry_processed`. -/
def drainRetries (env : CrawlEnv) (max_pages : Nat) (s : CrawlState) :
    CrawlState :=
  let r := processRetryQueue env s (min 5 (max_pages - s.total_scraped))
  { r.2 with total_scraped := r.2.total_scraped + r.1 }

/-- One iteration of the level loop (base_crawler.py lines 518-583):
retry drain, the inner link loop, batch persistence (external),
`queue = list(set(next_queue) - seen_urls)`, depth increment, and the
second guarded retry drain. -/
def crawlLevel (env : CrawlEnv) (max_pages : Nat) (s : CrawlState) :
    CrawlState :=
  let s := drainRetries env max_pages s
  let inner := crawlLinks env max_pages s.queue (s, [])
  let s := inner.1
  let s := { s with
    queue := inner.2.eraseDups.filter (fun l => ¬ s.seen_urls.contains l)
    depth := s.depth + 1 }
  if s.total_scraped < max_pages then drainRetries env max_pages s
  else s

/-- The `while queue and depth < max_depth and total_scraped < max_pages`
loop (base_crawler.py line 518).  The fuel argument carries the
remaining depth budget `max_depth - depth`: `depth` rises by exactly one
per iteration, so the depth guard is the fuel reaching zero. -/
def crawlLevels (env : CrawlEnv) (max_pages : Nat) :
    Nat → CrawlState → CrawlState
  | 0, s => s
  | fuel + 1, s =>
    if s.queue.isEmpty ∨ max_pages ≤ s.total_scraped then s
    else crawlLevels env max_pages fuel (crawlLevel env max_pages s)

/-- `BaseCrawler.run_full_scraper` (base_crawler.py lines 500-590):
seed from `get_new_links` (the oracle's `initial_links`), abort with
`False` on an empty seed set, then run the level loop. -/
def run_full_scraper (env : CrawlEnv) (max_depth max_pages : Nat) :
    Bool × CrawlState :=
  let queue := env.initial_links
  if queue.isEmpty then (false, { queue := queue })
  else (true, crawlLevels env max_pages max_depth { queue := queue })

/-! ## Dictionary lemmas -/

theorem dictRemove_cons_self {α : Type} (p : String × α) (t : List (String × α))
    (k : String) (hp : p.1 = k) : dictRemove (p :: t) k = dictRemove t k := by
  simp [dictRemove, List.filter_cons, hp]

theorem dictRemove_cons_ne {α : Type} (p : String × α) (t : List (String × α))
    (k : String) (hp : p.1 ≠ k) : dictRemove (p :: t) k = p :: dictRemove t k := by
  simp [dictRemove, List.filter_cons, hp]

theorem dictContains_dictRemove {α : Type} (l : List (String × α)) (k : String) :
    dictContains (dictRemove l k) k = false := by
  induction l with
  | nil => rfl
  | cons p t ih =>
    by_cases hp : p.1 = k
    · rw [dictRemove_cons_self p t k hp]; exact ih
    · have hb : (p.1 == k) = false := by simpa using hp
      rw [dictRemove_cons_ne p t k hp]
      show ((p :: dictRemove t k).any fun q => q.1 == k) = false
      rw [List.any_cons, hb]
      simpa [dictContains] using ih

theorem dictGet_dictRemove {α : Type} (l : List (String × α)) (k : String) :
    dictGet (dictRemove l k) k = none := by
  induction l with
  | nil => rfl
  | cons p t ih =>
    by_cases hp : p.1 = k
    · rw [dictRemove_cons_self p t k hp]; exact ih
    · have hb : (p.1 == k) = false := by simpa using hp
      rw [dictRemove_cons_ne p t k hp]
      show (((p :: dictRemove t k).find? fun q => q.1 == k).map Prod.snd) = none
      rw [List.find?_cons_of_neg _ (by simp [hb])]
      simpa [dictGet] using ih

theorem dictGet_of_all_ne {α : Type} (l : List (String × α)) (k : String)
    (h : ∀ p ∈ l, p.1 ≠ k) : dictGet l k = none := by
  induction l with
  | nil => rfl
  | cons p t ih =>
    have hb : (p.1 == k) = false := by simpa using h p (by simp)
    have ht : ∀ q ∈ t, q.1 ≠ k := fun q hq => h q (by simp [hq])
    simpa [dictGet, List.find?, hb] using ih ht

theorem dictContains_eq_false_of_all_ne {α : Type} (l : List (String × α))
    (k : String) (h : ∀ p ∈ l, p.1 ≠ k) : dictContains l k = false := by
  induction l with
  | nil => rfl
  | cons p t ih =>
    have hb : (p.1 == k) = false := by simpa using h p (by simp)
    have ht : ∀ q ∈ t, q.1 ≠ k := fun q hq => h q (by simp [hq])
    simpa [dictContains, hb] using ih ht

theorem dictInsert_of_all_ne {α : Type} (l : List (String × α)) (k : String)
    (v : α) (h : ∀ p ∈ l, p.1 ≠ k) : dictInsert l k v = l ++ [(k, v)] := by
  simp [dictInsert, dictContains_eq_false_of_all_ne l k h]

theorem dictGet_append_of_all_ne {α : Type} (l : List (String × α))
    (k : String) (v : α) (h : ∀ p ∈ l, p.1 ≠ k) :
    dictGet (l ++ [(k, v)]) k = some v := by
  induction l with
  | nil => simp [dictGet, List.find?]
  | cons p t ih =>
    have hb : (p.1 == k) = false := by simpa using h p (by simp)
    have ht : ∀ q ∈ t, q.1 ≠ k := fun q hq => h q (by simp [hq])
    simpa [dictGet, List.find?, hb] using ih ht

theorem dictGet_dictInsert_self {α : Type} (l : List (String × α))
    (k : String) (v : α) : dictGet (dictInsert l k v) k = some v := by
  by_cases hc : dictContains l k = true
  · simp only [dictInsert, hc, if_pos]
    induction l with
    | nil => simp [dictContains] at hc
    | cons p t ih =>
      by_cases hp : (p.1 == k) = true
      · simp [dictGet, List.find?, hp]
      · have hb : (p.1 == k) = false := by simpa using hp
        have ht : dictContains t k = true := by
          simpa [dictContains, hb] using hc
        simpa [dictGet, List.find?, hb] using ih ht
  · have hc' : dictContains l k = false := by simpa using hc
    have hne : ∀ p ∈ l, p.1 ≠ k := by
      intro p hp hk
      have : dictContains l k = true :=
        List.any_eq_true.mpr ⟨p, hp, by simp [hk]⟩
      simp [this] at hc'
    rw [dictInsert_of_all_ne l k v hne]
    exact dictGet_append_of_all_ne l k v hne

theorem filter_append_singleton_of_all_ne {α : Type}
    (l : List (String × α)) (k : String) (v : α) (h : ∀ p ∈ l, p.1 ≠ k) :
    (l ++ [(k, v)]).filter (fun p => p.1 == k) = [(k, v)] := by
  induction l with
  | nil => simp [List.filter]
  | cons p t ih =>
    have hb : (p.1 == k) = false := by simpa using h p (by simp)
    have ht : ∀ q ∈ t, q.1 ≠ k := fun q hq => h q (by simp [hq])
    simpa [List.filter_cons, hb] using ih ht

/-! ## Claim theorems: failure handler -/

/-- C9: `markSuccess` returns whether the URL was pending; on an absent
URL it is a no-op returning `false` without error; on a present URL it
removes the entry unconditionally and returns `true`; the permanent set,
policy, callback state and log are never touched. -/
theorem mark_success_idempotent (h : FailureHandler) (url : String) :
    (h.mark_task_success url).1 = dictContains h.pending_tasks url ∧
    ((h.mark_task_success url).2.permanent_failures = h.permanent_failures ∧
      (h.mark_task_success url).2.callback_log = h.callback_log ∧
      (h.mark_task_success url).2.retry_policy = h.retry_policy ∧
      (h.mark_task_success url).2.has_callback = h.has_callback) ∧
    (dictContains h.pending_tasks url = false → h.mark_task_success url = (false, h)) ∧
    (dictContains h.pending_tasks url = true →
      dictContains (h.mark_task_success url).2.pending_tasks url = false) := by
  by_cases hc : dictContains h.pending_tasks url = true
  · refine ⟨?_, ?_, ?_, ?_⟩ <;>
      simp [FailureHandler.mark_task_success, hc, dictContains_dictRemove]
  · have hc' : dictContains h.pending_tasks url = false := by simpa using hc
    refine ⟨?_, ?_, ?_, ?_⟩ <;>
      simp [FailureHandler.mark_task_success, hc']

/-- C9 witness: an empty handler does not contain `"http://x/a"`, and
`markSuccess` on it behaves as the theorem states. -/
theorem mark_success_idempotent_witness :
    let h : FailureHandler := { retry_policy := RetryPolicy.mkDefault }
    (h.mark_task_success "http://x/a").1 = dictContains h.pending_tasks "http://x/a" ∧
    ((h.mark_task_success "http://x/a").2.permanent_failures = h.permanent_failures ∧
      (h.mark_task_success "http://x/a").2.callback_log = h.callback_log ∧
      (h.mark_task_success "http://x/a").2.retry_policy = h.retry_policy ∧
      (h.mark_task_success "http://x/a").2.has_callback = h.has_callback) ∧
    (dictContains h.pending_tasks "http://x/a" = false →
      h.mark_task_success "http://x/a" = (false, h)) ∧
    (dictContains h.pending_tasks "http://x/a" = true →
      dictContains (h.mark_task_success "http://x/a").2.pending_tasks "http://x/a" = false) :=
  mark_success_idempotent { retry_policy := RetryPolicy.mkDefault } "http://x/a"

/-- C10: `registerFailure` with a plain-string error and no status code
always classifies the task as UNKNOWN — the string branch never inspects
the message text, so even messages carrying timeout/connection/parse
signatures are not classified as NETWORK or PARSING. -/
theorem string_error_without_status_is_unknown
    (h : FailureHandler) (url site msg : String)
    (extra : List (String × String)) (now base_sample jitter_unit : ℚ) :
    ((h.register_failure url site (PyError.str msg) none extra
        now base_sample jitter_unit).1).error_category = ErrorCategory.UNKNOWN := by
  unfold FailureHandler.register_failure
  cases hd : dictGet h.pending_tasks url <;>
    simp [hd, register_classify] <;> split <;> simp

/-- C8: `classify_error` assigns the category by status code first —
429 gives RATE_LIMIT, 403 gives PERMISSION, any other 400–499 gives
CLIENT, 500–599 gives SERVER; with no matching status code it behaves as
on no status code at all, inspecting the error name: network signatures
give NETWORK, else parse signatures give PARSING, else UNKNOWN. -/
theorem classify_error_matches_spec (cls : String) (s : Nat) :
    classify_error cls (some 429) = ErrorCategory.RATE_LIMIT ∧
    classify_error cls (some 403) = ErrorCategory.PERMISSION ∧
    (400 ≤ s → s < 500 → s ≠ 429 → s ≠ 403 →
      classify_error cls (some s) = ErrorCategory.CLIENT) ∧
    (500 ≤ s → s < 600 → classify_error cls (some s) = ErrorCategory.SERVER) ∧
    (¬(400 ≤ s ∧ s < 600) → classify_error cls (some s) = classify_error cls none) ∧
    (hasNetworkSignature (toLowerStr cls) = true →
      classify_error cls none = ErrorCategory.NETWORK) ∧
    (hasNetworkSignature (toLowerStr cls) = false → hasParsingSignature (toLowerStr cls) = true →
      classify_error cls none = ErrorCategory.PARSING) ∧
    (hasNetworkSignature (toLowerStr cls) = false → hasParsingSignature (toLowerStr cls) = false →
      classify_error cls none = ErrorCategory.UNKNOWN) := by
  refine ⟨?_, ?_, ?_, ?_, ?_, ?_, ?_, ?_⟩
  · simp [classify_error]
  · simp [classify_error]
  · intro h1 h2 h3 h4
    simp only [classify_error]
    rw [if_neg h3, if_neg h4, if_pos ⟨h1, h2⟩]
  · intro h1 h2
    simp only [classify_error]
    rw [if_neg (by omega), if_neg (by omega), if_neg (by omega), if_pos ⟨h1, h2⟩]
  · intro h
    simp only [classify_error]
    rw [if_neg (by omega), if_neg (by omega), if_neg (by omega), if_neg (by omega)]
  · intro h; simp [classify_error, classify_error_by_nature, h]
  · intro h1 h2; simp [classify_error, classify_error_by_nature, h1, h2]
  · intro h1 h2; simp [classify_error, classify_error_by_nature, h1, h2]

/-- C8 witness: the status-code-precedence rules evaluated at the class
name `"TimeoutError"` and status code 404. -/
theorem classify_error_matches_spec_witness :
    classify_error "TimeoutError" (some 429) = ErrorCategory.RATE_LIMIT ∧
    classify_error "TimeoutError" (some 403) = ErrorCategory.PERMISSION ∧
    (400 ≤ 404 → 404 < 500 → 404 ≠ 429 → 404 ≠ 403 →
      classify_error "TimeoutError" (some 404) = ErrorCategory.CLIENT) ∧
    (500 ≤ 404 → 404 < 600 →
      classify_error "TimeoutError" (some 404) = ErrorCategory.SERVER) ∧
    (¬(400 ≤ 404 ∧ 404 < 600) →
      classify_error "TimeoutError" (some 404) = classify_error "TimeoutError" none) ∧
    (hasNetworkSignature (toLowerStr "TimeoutError") = true →
      classify_error "TimeoutError" none = ErrorCategory.NETWORK) ∧
    (hasNetworkSignature (toLowerStr "TimeoutError") = false →
      hasParsingSignature (toLowerStr "TimeoutError") = true →
      classify_error "TimeoutError" none = ErrorCategory.PARSING) ∧
    (hasNetworkSignature (toLowerStr "TimeoutError") = false →
      hasParsingSignature (toLowerStr "TimeoutError") = false →
      classify_error "TimeoutError" none = ErrorCategory.UNKNOWN) :=
  classify_error_matches_spec "TimeoutError" 404

/-- `n` successive `register_failure` calls for one URL; call `i` uses
the clock reading and random draws `sched i`. -/
def registerIter (sched : Nat → ℚ × ℚ × ℚ) (url site : String)
    (error : PyError) (sc : Option Nat) (extra : List (String × String)) :
    Nat → FailureHandler → FailureHandler
  | 0, h => h
  | n + 1, h =>
    let h1 := registerIter sched url site error sc extra n h
    ((h1.register_failure url site error sc extra
        (sched n).1 (sched n).2.1 (sched n).2.2).2)

/-- One `register_failure` call whose resulting retry count is still
below the category's budget: the task stays pending with that retry
count and the freshly computed category; nothing else changes. -/
theorem register_failure_retry_branch (h : FailureHandler) (url site : String)
    (error : PyError) (sc : Option Nat) (extra : List (String × String))
    (now bs ju : ℚ) (rc : Nat)
    (hrc : (match dictGet h.pending_tasks url with
            | some t => t.retry_count + 1
            | none => 0) = rc)
    (hlt : rc < h.retry_policy.max_retries (register_classify error sc).2) :
    (h.register_failure url site error sc extra now bs ju).2.retry_policy = h.retry_policy ∧
    (h.register_failure url site error sc extra now bs ju).2.has_callback = h.has_callback ∧
    (h.register_failure url site error sc extra now bs ju).2.permanent_failures = h.permanent_failures ∧
    (h.register_failure url site error sc extra now bs ju).2.callback_log = h.callback_log ∧
    ∃ t, dictGet (h.register_failure url site error sc extra now bs ju).2.pending_tasks url = some t ∧
      t.retry_count = rc ∧ t.error_category = (register_classify error sc).2 := by
  cases hget : dictGet h.pending_tasks url with
  | none =>
    rw [hget] at hrc
    simp only at hrc
    subst hrc
    simp only [FailureHandler.register_failure, hget, RetryPolicy.should_retry]
    rw [if_pos (by simpa using hlt)]
    exact ⟨rfl, rfl, rfl, rfl, _, dictGet_dictInsert_self _ _ _, rfl, rfl⟩
  | some t0 =>
    rw [hget] at hrc
    simp only at hrc
    subst hrc
    simp only [FailureHandler.register_failure, hget, RetryPolicy.should_retry]
    rw [if_pos (by simpa using hlt)]
    exact ⟨rfl, rfl, rfl, rfl, _, dictGet_dictInsert_self _ _ _, rfl, rfl⟩

/-- One `register_failure` call whose resulting retry count exhausts the
category's budget: the task leaves the pending set, enters the permanent
set with that retry count, and the callback fires when registered. -/
theorem register_failure_permanent_branch (h : FailureHandler) (url site : String)
    (error : PyError) (sc : Option Nat) (extra : List (String × String))
    (now bs ju : ℚ) (rc : Nat)
    (hrc : (match dictGet h.pending_tasks url with
            | some t => t.retry_count + 1
            | none => 0) = rc)
    (hge : ¬ rc < h.retry_policy.max_retries (register_classify error sc).2) :
    (h.register_failure url site error sc extra now bs ju).2.retry_policy = h.retry_policy ∧
    (h.register_failure url site error sc extra now bs ju).2.has_callback = h.has_callback ∧
    dictGet (h.register_failure url site error sc extra now bs ju).2.pending_tasks url = none ∧
    (h.register_failure url site error sc extra now bs ju).2.permanent_failures =
      dictInsert h.permanent_failures url (h.register_failure url site error sc extra now bs ju).1 ∧
    (h.register_failure url site error sc extra now bs ju).1.retry_count = rc ∧
    (h.register_failure url site error sc extra now bs ju).1.error_category = (register_classify error sc).2 ∧
    (h.register_failure url site error sc extra now bs ju).2.callback_log =
      (if h.has_callback then h.callback_log ++ [url] else h.callback_log) := by
  cases hget : dictGet h.pending_tasks url with
  | none =>
    rw [hget] at hrc
    simp only at hrc
    subst hrc
    simp only [FailureHandler.register_failure, hget, RetryPolicy.should_retry]
    rw [if_neg (by simpa using hge)]
    exact ⟨rfl, rfl, dictGet_dictRemove _ _, rfl, rfl, rfl, rfl⟩
  | some t0 =>
    rw [hget] at hrc
    simp only at hrc
    subst hrc
    simp only [FailureHandler.register_failure, hget, RetryPolicy.should_retry]
    rw [if_neg (by simpa using hge)]
    exact ⟨rfl, rfl, dictGet_dictRemove _ _, rfl, rfl, rfl, rfl⟩

/-- Invariant of the pending phase: while the retry budget is not yet
exhausted, repeated registration keeps the task pending with retry count
one below the number of calls, and touches neither the permanent set nor
the callback log. -/
theorem registerIter_pending_phase
    (h0 : FailureHandler) (sched : Nat → ℚ × ℚ × ℚ)
    (url site : String) (error : PyError) (sc : Option Nat)
    (extra : List (String × String))
    (hpend : ∀ p ∈ h0.pending_tasks, p.1 ≠ url) :
    ∀ k, k ≤ h0.retry_policy.max_retries (register_classify error sc).2 →
      (registerIter sched url site error sc extra k h0).retry_policy = h0.retry_policy ∧
      (registerIter sched url site error sc extra k h0).has_callback = h0.has_callback ∧
      (registerIter sched url site error sc extra k h0).permanent_failures = h0.permanent_failures ∧
      (registerIter sched url site error sc extra k h0).callback_log = h0.callback_log ∧
      (match dictGet (registerIter sched url site error sc extra k h0).pending_tasks url with
        | some t => t.retry_count + 1
        | none => 0) = k := by
  intro k
  induction k with
  | zero =>
    intro _
    exact ⟨rfl, rfl, rfl, rfl, by rw [registerIter, dictGet_of_all_ne _ _ hpend]⟩
  | succ k ih =>
    intro hk1
    obtain ⟨hpol, hcb, hperm, hlog, hmatch⟩ := ih (Nat.le_of_succ_le hk1)
    have hlt : (match dictGet (registerIter sched url site error sc extra k h0).pending_tasks url with
        | some t => t.retry_count + 1
        | none => 0) <
        (registerIter sched url site error sc extra k h0).retry_policy.max_retries
          (register_classify error sc).2 := by
      rw [hmatch, hpol]; exact Nat.lt_of_succ_le hk1
    obtain ⟨p1, p2, p3, p4, t, hget, hrc, hcat⟩ :=
      register_failure_retry_branch
        (registerIter sched url site error sc extra k h0) url site error sc extra
        (sched k).1 (sched k).2.1 (sched k).2.2 _ rfl hlt
    rw [hmatch] at hrc
    refine ⟨?_, ?_, ?_, ?_, ?_⟩
    · rw [registerIter]; exact p1.trans hpol
    · rw [registerIter]; exact p2.trans hcb
    · rw [registerIter]; exact p3.trans hperm
    · rw [registerIter]; exact p4.trans hlog
    · rw [registerIter]
      show (match dictGet ((FailureHandler.register_failure _ url site error sc extra _ _ _).2).pending_tasks url with
        | some t => t.retry_count + 1
        | none => 0) = k + 1
      rw [hget]
      simpa using hrc

/-- C6: for every error category, a URL whose failure is registered
`maxRetries[category] + 1` times on a handler fresh for that URL ends in
the permanent-failure set exactly once, with retry count equal to
`maxRetries[category]`, is no longer pending, and the permanent-failure
callback has fired exactly once for it. -/
theorem retry_termination
    (h0 : FailureHandler) (sched : Nat → ℚ × ℚ × ℚ)
    (url site : String) (error : PyError) (sc : Option Nat)
    (extra : List (String × String)) (cat : ErrorCategory)
    (hcat : (register_classify error sc).2 = cat)
    (hpend : ∀ p ∈ h0.pending_tasks, p.1 ≠ url)
    (hperm : ∀ p ∈ h0.permanent_failures, p.1 ≠ url)
    (hlog : h0.callback_log.count url = 0)
    (hcb : h0.has_callback = true) :
    (dictGet (registerIter sched url site error sc extra
          (h0.retry_policy.max_retries cat + 1) h0).permanent_failures url).map
        (fun t => (t.retry_count, t.error_category))
      = some (h0.retry_policy.max_retries cat, cat) ∧
    ((registerIter sched url site error sc extra
          (h0.retry_policy.max_retries cat + 1) h0).permanent_failures.filter
        (fun p => p.1 == url)).length = 1 ∧
    dictGet (registerIter sched url site error sc extra
        (h0.retry_policy.max_retries cat + 1) h0).pending_tasks url = none ∧
    (registerIter sched url site error sc extra
        (h0.retry_policy.max_retries cat + 1) h0).callback_log.count url = 1 := by
  subst hcat
  set n := h0.retry_policy.max_retries (register_classify error sc).2 with hn
  obtain ⟨hpol, hcb', hperm', hlog', hmatch⟩ :=
    registerIter_pending_phase h0 sched url site error sc extra hpend n le_rfl
  have hge : ¬ (match dictGet (registerIter sched url site error sc extra n h0).pending_tasks url with
      | some t => t.retry_count + 1
      | none => 0) <
      (registerIter sched url site error sc extra n h0).retry_policy.max_retries
        (register_classify error sc).2 := by
    rw [hmatch, hpol]; exact Nat.lt_irrefl n
  obtain ⟨q1, q2, q3, q4, q5, q6, q7⟩ :=
    register_failure_permanent_branch
      (registerIter sched url site error sc extra n h0) url site error sc extra
      (sched n).1 (sched n).2.1 (sched n).2.2 _ rfl hge
  rw [hmatch] at q5
  rw [hperm'] at q4
  rw [dictInsert_of_all_ne _ _ _ hperm] at q4
  refine ⟨?_, ?_, ?_, ?_⟩
  · rw [registerIter]
    show (dictGet ((FailureHandler.register_failure _ url site error sc extra _ _ _).2).permanent_failures url).map _ = _
    rw [q4, dictGet_append_of_all_ne _ _ _ hperm]
    simp [q5, q6]
  · rw [registerIter]
    show (((FailureHandler.register_failure _ url site error sc extra _ _ _).2).permanent_failures.filter _).length = 1
    rw [q4, filter_append_singleton_of_all_ne _ _ _ hperm]
    rfl
  · rw [registerIter]
    exact q3
  · rw [registerIter]
    show ((FailureHandler.register_failure _ url site error sc extra _ _ _).2).callback_log.count url = 1
    rw [q7, hcb'.trans hcb, if_pos rfl, hlog']
    simp [List.count_append, hlog]

/-- C6 witness, concrete scenario B: a NETWORK failure (`TimeoutError`)
registered `maxRetries NETWORK + 1 = 6` times on a fresh default handler
is permanent exactly once with retry count 5, and fired the callback
once. -/
theorem retry_termination_witness :
    (dictGet (registerIter (fun _ => (0, 1, 0)) "http://x/a" "udn"
          (PyError.exc "TimeoutError" "boom") none []
          (({ retry_policy := RetryPolicy.mkDefault, has_callback := true } :
              FailureHandler).retry_policy.max_retries ErrorCategory.NETWORK + 1)
          { retry_policy := RetryPolicy.mkDefault, has_callback := true }).permanent_failures
        "http://x/a").map (fun t => (t.retry_count, t.error_category))
      = some (({ retry_policy := RetryPolicy.mkDefault, has_callback := true } :
          FailureHandler).retry_policy.max_retries ErrorCategory.NETWORK, ErrorCategory.NETWORK) ∧
    ((registerIter (fun _ => (0, 1, 0)) "http://x/a" "udn"
          (PyError.exc "TimeoutError" "boom") none []
          (({ retry_policy := RetryPolicy.mkDefault, has_callback := true } :
              FailureHandler).retry_policy.max_retries ErrorCategory.NETWORK + 1)
          { retry_policy := RetryPolicy.mkDefault, has_callback := true }).permanent_failures.filter
        (fun p => p.1 == "http://x/a")).length = 1 ∧
    dictGet (registerIter (fun _ => (0, 1, 0)) "http://x/a" "udn"
          (PyError.exc "TimeoutError" "boom") none []
          (({ retry_policy := RetryPolicy.mkDefault, has_callback := true } :
              FailureHandler).retry_policy.max_retries ErrorCategory.NETWORK + 1)
          { retry_policy := RetryPolicy.mkDefault, has_callback := true }).pending_tasks
        "http://x/a" = none ∧
    (registerIter (fun _ => (0, 1, 0)) "http://x/a" "udn"
          (PyError.exc "TimeoutError" "boom") none []
          (({ retry_policy := RetryPolicy.mkDefault, has_callback := true } :
              FailureHandler).retry_policy.max_retries ErrorCategory.NETWORK + 1)
          { retry_policy := RetryPolicy.mkDefault, has_callback := true }).callback_log.count
        "http://x/a" = 1 :=
  retry_termination
    { retry_policy := RetryPolicy.mkDefault, has_callback := true }
    (fun _ => (0, 1, 0)) "http://x/a" "udn"
    (PyError.exc "TimeoutError" "boom") none [] ErrorCategory.NETWORK
    (by decide) (by simp) (by simp) rfl rfl

theorem fromValue_value (c : ErrorCategory) :
    ErrorCategory.fromValue c.value = some c := by
  cases c <;> rfl

theorem taskFromDict_to_dict (t : FailedTask) (b : Bool) :
    ∃ t', taskFromDict t.to_dict b = some t' ∧
      t'.retry_count = t.retry_count ∧ t'.error_category = t.error_category := by
  simp only [taskFromDict, FailedTask.to_dict, fromValue_value]
  exact ⟨_, rfl, rfl, rfl⟩

theorem loadTaskList_map_to_dict (b : Bool) (l : List (String × FailedTask)) :
    (loadTaskList b (l.map (fun p => (p.1, p.2.to_dict)))).map
        (fun l' => l'.map taskKeyInfo)
      = some (l.map taskKeyInfo) := by
  induction l with
  | nil => rfl
  | cons p rest ih =>
    obtain ⟨t', ht', hrc, hcat⟩ := taskFromDict_to_dict p.2 b
    simp only [List.map_cons, loadTaskList, ht']
    cases hrest : loadTaskList b (rest.map (fun p => (p.1, p.2.to_dict))) with
    | none => rw [hrest] at ih; simp at ih
    | some ls =>
      rw [hrest] at ih
      simp only [Option.map_some'] at ih ⊢
      simp only [Option.some.injEq] at ih
      simp [taskKeyInfo, hrc, hcat, ih]

/-- C7: persisting the pending and permanent task sets and restoring the
snapshot reproduces, for every task, the identical retry count, error
category and pending/permanent membership (keys, order included). -/
theorem persistence_round_trip (h : FailureHandler) (now : ℚ) :
    (h.load_from_data (h.save_data now)).map
        (fun g => (g.pending_tasks.map taskKeyInfo,
                   g.permanent_failures.map taskKeyInfo))
      = some (h.pending_tasks.map taskKeyInfo,
              h.permanent_failures.map taskKeyInfo) := by
  have hp := loadTaskList_map_to_dict true h.pending_tasks
  have hq := loadTaskList_map_to_dict false h.permanent_failures
  simp only [FailureHandler.load_from_data, FailureHandler.save_data]
  cases hp' : loadTaskList true (h.pending_tasks.map (fun p => (p.1, p.2.to_dict))) with
  | none => rw [hp'] at hp; simp at hp
  | some lp =>
    cases hq' : loadTaskList false (h.permanent_failures.map (fun p => (p.1, p.2.to_dict))) with
    | none => rw [hq'] at hq; simp at hq
    | some lq =>
      rw [hp'] at hp; rw [hq'] at hq
      simp only [Option.map_some', Option.some.injEq] at hp hq
      simp [hp, hq]

/-! ## Claim theorems: scheduler -/

/-- C1 (failing input): scheduling site "udn" with cron `*/10 * * * *`
and then rescheduling it with `0 * * * *` and `replace_existing = true`
leaves TWO jobs for "udn" — the old job is not removed, because the
existing-job check looks the site name up among the keys of `site_jobs`
while entries are stored under the job id (scheduler.py line 128 versus
line 150).  Both calls report success. -/
theorem reschedule_udn_leaves_two_jobs :
    (({} : CrawlerScheduler).schedule_site "udn" "*/10 * * * *" true 100).1 = true ∧
    ((({} : CrawlerScheduler).schedule_site "udn" "*/10 * * * *" true 100).2.schedule_site
        "udn" "0 * * * *" true 700).1 = true ∧
    (((({} : CrawlerScheduler).schedule_site "udn" "*/10 * * * *" true 100).2.schedule_site
          "udn" "0 * * * *" true 700).2.jobs.filter
        (fun j => j.name == "Crawl udn")).length = 2 ∧
    ((({} : CrawlerScheduler).schedule_site "udn" "*/10 * * * *" true 100).2.schedule_site
        "udn" "0 * * * *" true 700).2.jobs.map (fun j => j.trigger)
      = ["*/10 * * * *", "0 * * * *"] := by
  decide

/-! ## Claim theorems: rate limiter -/

/-- C3 (counterexample): on a default-configured manager, a single
successful `reportResult` leaves the domain's `current_delay` at `0`,
strictly below `min_domain_delay = 1`, so `currentDelay` does not always
lie within `[minDomainDelay, maxDomainDelay]`. -/
theorem delay_below_min_after_success :
    ((({} : RateLimiterManager).report_request_result "http://a.com/x" true none 0).domain_status
        "a.com").current_delay = 0 ∧
    ((({} : RateLimiterManager).report_request_result "http://a.com/x" true none 0).domain_status
          "a.com").current_delay
      < ({} : RateLimiterManager).min_domain_delay := by
  decide

/-- A report with no status code is exactly one domain-status update. -/
theorem report_none_status (m : RateLimiterManager) (url : String)
    (success : Bool) (now : ℚ) :
    m.report_request_result url success none now
      = m.update_domain_status (extract_domain url) success now := by
  unfold RateLimiterManager.report_request_result
  simp

/-- Domain extraction evaluated at the concrete test URL. -/
theorem extract_domain_test_url : extract_domain "http://a.com/x" = "a.com" := by
  decide

/-- C4 (counterexample): configuring only `min_domain_delay = 1.5` (with
the default base delay 3.0) and reporting one failure seeds
`current_delay` from `get_domain_delay`, giving 3.0, not the claimed
1.5 — the seed is the base delay, not the minimum. -/
theorem scenario_a_min_delay_reading_fails :
    ((({ min_domain_delay := 3/2, failure_backoff_factor := 2 } :
          RateLimiterManager).report_request_result "http://a.com/x" false none 0).domain_status
        "a.com").current_delay = 3 ∧
    ((({ min_domain_delay := 3/2, failure_backoff_factor := 2 } :
          RateLimiterManager).report_request_result "http://a.com/x" false none 0).domain_status
        "a.com").current_delay ≠ 3/2 := by
  norm_num [report_none_status, RateLimiterManager.update_domain_status,
    RateLimiterManager.get_domain_delay, RateLimiterManager.setStatus, dictGet,
    extract_domain_test_url]

/-- C4 (amended): with the domain's base delay (`default_domain_delay`,
as returned by `get_domain_delay`) equal to 1.5 and
`failure_backoff_factor = 2`, three consecutive failure reports take
`current_delay` through 1.5, 3.0 and 6.0, and an `admit` immediately
after the third failure waits exactly 6.0 seconds. -/
theorem scenario_a_backoff_progression :
    (((({ default_domain_delay := 3/2, failure_backoff_factor := 2 } :
            RateLimiterManager).report_request_result "http://a.com/x" false none 0).domain_status
        "a.com").current_delay = 3/2) ∧
    ((((({ default_domain_delay := 3/2, failure_backoff_factor := 2 } :
            RateLimiterManager).report_request_result "http://a.com/x" false none 0).report_request_result
          "http://a.com/x" false none 0).domain_status "a.com").current_delay = 3) ∧
    (((((({ default_domain_delay := 3/2, failure_backoff_factor := 2 } :
            RateLimiterManager).report_request_result "http://a.com/x" false none 0).report_request_result
          "http://a.com/x" false none 0).report_request_result
          "http://a.com/x" false none 0).domain_status "a.com").current_delay = 6) ∧
    ((((({ default_domain_delay := 3/2, failure_backoff_factor := 2 } :
            RateLimiterManager).report_request_result "http://a.com/x" false none 0).report_request_result
          "http://a.com/x" false none 0).report_request_result
          "http://a.com/x" false none 0).wait_for_rate_limit "http://a.com/x" 0).1 = 6 := by
  norm_num [report_none_status, RateLimiterManager.update_domain_status,
    RateLimiterManager.get_domain_delay, RateLimiterManager.setStatus, dictGet,
    RateLimiterManager.wait_for_rate_limit, RateLimiterManager.is_domain_throttled,
    RateLimiterManager.check_global_rate_limit, extract_domain_test_url]

/-- C2 (counterexample): with `global_rate_limit = 1`, an admit at time 0
fills the window; a second admit on the unthrottled domain at time 4
returns a positive wait but records NO new entry in the global sliding
window — the window still holds only the first call's timestamp, so the
call does not unconditionally record its timestamp as a window entry. -/
theorem positive_global_wait_drops_window_entry :
    (((({ global_rate_limit := 1 } : RateLimiterManager).wait_for_rate_limit
        "http://a.com/x" 0).2).global_request_timestamps = [0]) ∧
    ((((({ global_rate_limit := 1 } : RateLimiterManager).wait_for_rate_limit
        "http://a.com/x" 0).2).is_domain_throttled "a.com" 4).1 = false) ∧
    (0 < ((((({ global_rate_limit := 1 } : RateLimiterManager).wait_for_rate_limit
        "http://a.com/x" 0).2).wait_for_rate_limit "http://a.com/x" 4).1)) ∧
    (((((({ global_rate_limit := 1 } : RateLimiterManager).wait_for_rate_limit
        "http://a.com/x" 0).2).wait_for_rate_limit "http://a.com/x" 4).2).global_request_timestamps
      = [0]) := by
  norm_num [RateLimiterManager.wait_for_rate_limit, RateLimiterManager.is_domain_throttled,
    RateLimiterManager.check_global_rate_limit, RateLimiterManager.get_domain_delay,
    RateLimiterManager.setStatus, dictGet, extract_domain_test_url]

/-- The window produced by `check_global_rate_limit`: pruned, with the
call's timestamp appended exactly when no positive global wait was
imposed. -/
theorem check_global_window_shape (m : RateLimiterManager) (now : ℚ) :
    (m.check_global_rate_limit now).2.global_request_timestamps =
      (if (m.check_global_rate_limit now).1.1 then
        m.global_request_timestamps.filter (fun t => decide (now - m.global_time_window < t))
      else
        m.global_request_timestamps.filter (fun t => decide (now - m.global_time_window < t)) ++ [now]) ∧
    ((m.check_global_rate_limit now).2.global_rate_limit = m.global_rate_limit ∧
     (m.check_global_rate_limit now).2.global_time_window = m.global_time_window ∧
     (m.check_global_rate_limit now).2.domain_status = m.domain_status ∧
     (m.check_global_rate_limit now).2.domain_delay_settings = m.domain_delay_settings ∧
     (m.check_global_rate_limit now).2.default_domain_delay = m.default_domain_delay) := by
  unfold RateLimiterManager.check_global_rate_limit
  cases hts : m.global_request_timestamps.filter (fun t => decide (now - m.global_time_window < t)) with
  | nil => simp [hts]
  | cons t rest =>
    simp only [hts]
    by_cases hcap : m.global_rate_limit ≤ (t :: rest).length
    · rw [if_pos hcap]
      by_cases hw : 0 < (t :: rest).foldl min t + m.global_time_window - now
      · rw [if_pos hw]; simp
      · rw [if_neg hw]; simp
    · rw [if_neg hcap]; simp

/-- C2 (amended): for an unthrottled domain, `admit` returns exactly
`max(domainWait, globalWait)`; it unconditionally updates the domain's
last-access time (to the post-wait timestamp `now + wait`), but it
appends this call's timestamp to the global sliding window only when the
global check imposed no positive wait — at capacity, nothing is
recorded. -/
theorem admit_wait_and_recording (m : RateLimiterManager) (url : String) (now : ℚ)
    (hthr : (m.is_domain_throttled (extract_domain url) now).1 = false) :
    (m.wait_for_rate_limit url now).1 =
      max (max 0
            (max ((m.is_domain_throttled (extract_domain url) now).2.domain_status
                (extract_domain url)).current_delay
              ((m.is_domain_throttled (extract_domain url) now).2.get_domain_delay
                (extract_domain url)) -
            (now - ((m.is_domain_throttled (extract_domain url) now).2.domain_status
                (extract_domain url)).last_access)))
        ((((m.is_domain_throttled (extract_domain url) now).2.check_global_rate_limit now).1.2).getD 0) ∧
    ((m.wait_for_rate_limit url now).2.domain_status (extract_domain url)).last_access
      = now + (m.wait_for_rate_limit url now).1 ∧
    (m.wait_for_rate_limit url now).2.global_request_timestamps
      = (((m.is_domain_throttled (extract_domain url) now).2.check_global_rate_limit now).2).global_request_timestamps := by
  unfold RateLimiterManager.wait_for_rate_limit
  simp only [hthr, Bool.false_eq_true, if_false]
  refine ⟨trivial, ?_, ?_⟩ <;> simp [RateLimiterManager.setStatus]

/-- C2 witness: the amended admit contract evaluated on a fresh default
manager at time 0. -/
theorem admit_wait_and_recording_witness :
    (({} : RateLimiterManager).wait_for_rate_limit "http://a.com/x" 0).1 =
      max (max 0
            (max ((({} : RateLimiterManager).is_domain_throttled (extract_domain "http://a.com/x") 0).2.domain_status
                (extract_domain "http://a.com/x")).current_delay
              ((({} : RateLimiterManager).is_domain_throttled (extract_domain "http://a.com/x") 0).2.get_domain_delay
                (extract_domain "http://a.com/x")) -
            (0 - ((({} : RateLimiterManager).is_domain_throttled (extract_domain "http://a.com/x") 0).2.domain_status
                (extract_domain "http://a.com/x")).last_access)))
        ((((({} : RateLimiterManager).is_domain_throttled (extract_domain "http://a.com/x") 0).2.check_global_rate_limit 0).1.2).getD 0) ∧
    ((({} : RateLimiterManager).wait_for_rate_limit "http://a.com/x" 0).2.domain_status (extract_domain "http://a.com/x")).last_access
      = 0 + (({} : RateLimiterManager).wait_for_rate_limit "http://a.com/x" 0).1 ∧
    (({} : RateLimiterManager).wait_for_rate_limit "http://a.com/x" 0).2.global_request_timestamps
      = (((({} : RateLimiterManager).is_domain_throttled (extract_domain "http://a.com/x") 0).2.check_global_rate_limit 0).2).global_request_timestamps :=
  admit_wait_and_recording {} "http://a.com/x" 0 rfl

/-- The delay invariant actually maintained by the code: `current_delay`
is either still unseeded (`0`) or within `[min_domain_delay,
max_domain_delay]`. -/
def delayInv (m : RateLimiterManager) (domain : String) : Prop :=
  (m.domain_status domain).current_delay = 0 ∨
  (m.min_domain_delay ≤ (m.domain_status domain).current_delay ∧
    (m.domain_status domain).current_delay ≤ m.max_domain_delay)

/-- Configuration sanity for one domain: ordered, nonnegative bounds,
base delay within bounds, backoff ≥ 1, recovery in `[0, 1]` — all
satisfied by the constructor defaults. -/
def delayConfigOk (m : RateLimiterManager) (domain : String) : Prop :=
  0 ≤ m.min_domain_delay ∧
  m.min_domain_delay ≤ m.max_domain_delay ∧
  m.min_domain_delay ≤ m.get_domain_delay domain ∧
  m.get_domain_delay domain ≤ m.max_domain_delay ∧
  1 ≤ m.failure_backoff_factor ∧
  0 ≤ m.success_recovery_factor ∧
  m.success_recovery_factor ≤ 1

theorem update_domain_status_eq_setStatus (m : RateLimiterManager)
    (domain : String) (success : Bool) (now : ℚ) :
    ∃ st, m.update_domain_status domain success now = m.setStatus domain st := by
  unfold RateLimiterManager.update_domain_status
  cases success <;> exact ⟨_, rfl⟩

theorem setStatus_domain_status_self (m : RateLimiterManager) (domain : String)
    (st : DomainStatus) : (m.setStatus domain st).domain_status domain = st := by
  simp [RateLimiterManager.setStatus]

theorem setStatus_delayConfigOk (m : RateLimiterManager) (d dom : String)
    (st : DomainStatus) (h : delayConfigOk m dom) :
    delayConfigOk (m.setStatus d st) dom := h

theorem update_preserves_delayConfigOk (m : RateLimiterManager)
    (d dom : String) (success : Bool) (now : ℚ) (h : delayConfigOk m dom) :
    delayConfigOk (m.update_domain_status d success now) dom := by
  obtain ⟨st, hst⟩ := update_domain_status_eq_setStatus m d success now
  rw [hst]
  exact setStatus_delayConfigOk m d dom st h

/-- What `update_domain_status` does to `current_delay`. -/
theorem update_domain_status_delay_char (m : RateLimiterManager)
    (domain : String) (success : Bool) (now : ℚ) :
    ((m.update_domain_status domain success now).domain_status domain).current_delay
      = if success = true then
          (if 0 < (m.domain_status domain).current_delay
           then max m.min_domain_delay
             ((m.domain_status domain).current_delay * m.success_recovery_factor)
           else (m.domain_status domain).current_delay)
        else
          (if (m.domain_status domain).current_delay ≤ 0
           then m.get_domain_delay domain
           else min m.max_domain_delay
             ((m.domain_status domain).current_delay * m.failure_backoff_factor)) := by
  unfold RateLimiterManager.update_domain_status
  cases success with
  | false =>
    by_cases hd : (m.domain_status domain).current_delay ≤ 0 <;>
      by_cases hth : m.max_failures_before_throttle ≤ (m.domain_status domain).failure_count + 1 <;>
      simp [hd, hth, RateLimiterManager.setStatus]
  | true =>
    by_cases hd : 0 < (m.domain_status domain).current_delay <;>
      simp [hd, RateLimiterManager.setStatus]

theorem update_min_domain_delay (m : RateLimiterManager) (domain : String)
    (success : Bool) (now : ℚ) :
    (m.update_domain_status domain success now).min_domain_delay = m.min_domain_delay := by
  obtain ⟨st, hst⟩ := update_domain_status_eq_setStatus m domain success now
  rw [hst]; rfl

theorem update_max_domain_delay (m : RateLimiterManager) (domain : String)
    (success : Bool) (now : ℚ) :
    (m.update_domain_status domain success now).max_domain_delay = m.max_domain_delay := by
  obtain ⟨st, hst⟩ := update_domain_status_eq_setStatus m domain success now
  rw [hst]; rfl

theorem update_preserves_delayInv (m : RateLimiterManager) (domain : String)
    (success : Bool) (now : ℚ)
    (hcfg : delayConfigOk m domain) (hinv : delayInv m domain) :
    delayInv (m.update_domain_status domain success now) domain := by
  obtain ⟨h0, h1, h2, h3, h4, h5, h6⟩ := hcfg
  unfold delayInv
  rw [update_domain_status_delay_char, update_min_domain_delay, update_max_domain_delay]
  cases success with
  | true =>
    simp only [if_true]
    by_cases hd : 0 < (m.domain_status domain).current_delay
    · rw [if_pos hd]
      have hrange : m.min_domain_delay ≤ (m.domain_status domain).current_delay ∧
          (m.domain_status domain).current_delay ≤ m.max_domain_delay := by
        rcases hinv with h | h
        · rw [h] at hd; exact absurd hd (lt_irrefl 0)
        · exact h
      right
      refine ⟨le_max_left _ _, max_le h1 ?_⟩
      calc (m.domain_status domain).current_delay * m.success_recovery_factor
          ≤ (m.domain_status domain).current_delay * 1 :=
            mul_le_mul_of_nonneg_left h6 (le_of_lt hd)
        _ = (m.domain_status domain).current_delay := mul_one _
        _ ≤ m.max_domain_delay := hrange.2
    · rw [if_neg hd]
      exact hinv
  | false =>
    simp only [Bool.false_eq_true, if_false]
    by_cases hd : (m.domain_status domain).current_delay ≤ 0
    · rw [if_pos hd]
      exact Or.inr ⟨h2, h3⟩
    · rw [if_neg hd]
      push_neg at hd
      have hrange : m.min_domain_delay ≤ (m.domain_status domain).current_delay ∧
          (m.domain_status domain).current_delay ≤ m.max_domain_delay := by
        rcases hinv with h | h
        · rw [h] at hd; exact absurd hd (lt_irrefl 0)
        · exact h
      refine Or.inr ⟨le_min h1 ?_, min_le_left _ _⟩
      calc m.min_domain_delay ≤ (m.domain_status domain).current_delay := hrange.1
        _ = (m.domain_status domain).current_delay * 1 := (mul_one _).symm
        _ ≤ (m.domain_status domain).current_delay * m.failure_backoff_factor :=
          mul_le_mul_of_nonneg_left h4 (le_of_lt hd)

theorem report_preserves_delayInv (m : RateLimiterManager) (url : String)
    (success : Bool) (sc : Option Nat) (now : ℚ)
    (hcfg : delayConfigOk m (extract_domain url))
    (hinv : delayInv m (extract_domain url)) :
    delayInv (m.report_request_result url success sc now) (extract_domain url) := by
  unfold RateLimiterManager.report_request_result
  split
  · exact update_preserves_delayInv _ _ _ _
      (update_preserves_delayConfigOk _ _ _ _ _ hcfg)
      (update_preserves_delayInv _ _ _ _ hcfg hinv)
  · exact update_preserves_delayInv _ _ _ _ hcfg hinv

theorem report_preserves_delayConfigOk (m : RateLimiterManager) (url : String)
    (success : Bool) (sc : Option Nat) (now : ℚ)
    (hcfg : delayConfigOk m (extract_domain url)) :
    delayConfigOk (m.report_request_result url success sc now) (extract_domain url) := by
  unfold RateLimiterManager.report_request_result
  split
  · exact update_preserves_delayConfigOk _ _ _ _ _
      (update_preserves_delayConfigOk _ _ _ _ _ hcfg)
  · exact update_preserves_delayConfigOk _ _ _ _ _ hcfg

/-- C3 (amended): for every sequence of `reportResult` calls on one
domain, `current_delay` stays in `{0} ∪ [min_domain_delay,
max_domain_delay]` — it is `0` until the first failure seeds it (so a
success-only history leaves it below `min_domain_delay`), and once
seeded it stays within the bounds, given a sane configuration (base
delay within bounds, backoff ≥ 1, recovery in `[0, 1]`, as the defaults
are). -/
theorem delay_bounds_over_report_sequences (m : RateLimiterManager)
    (url : String) (calls : List (Bool × Option Nat × ℚ))
    (hcfg : delayConfigOk m (extract_domain url))
    (hinv : delayInv m (extract_domain url)) :
    delayInv (m.reportSeq url calls) (extract_domain url) := by
  induction calls generalizing m with
  | nil => exact hinv
  | cons c rest ih =>
    exact ih _ (report_preserves_delayConfigOk _ _ _ _ _ hcfg)
      (report_preserves_delayInv _ _ _ _ _ hcfg hinv)

/-- C3 witness: a fresh default manager satisfies the configuration and
starting hypotheses, and the invariant holds after a failure followed by
a success. -/
theorem delay_bounds_over_report_sequences_witness :
    delayInv (({} : RateLimiterManager).reportSeq "http://a.com/x"
      [(false, none, 0), (true, none, 1)]) (extract_domain "http://a.com/x") :=
  delay_bounds_over_report_sequences {} "http://a.com/x"
    [(false, none, 0), (true, none, 1)]
    (by unfold delayConfigOk RateLimiterManager.get_domain_delay; norm_num [dictGet])
    (Or.inl rfl)

/-! ## Claim theorems: frontier orchestrator -/

theorem foldl_retry_bound (env : CrawlEnv) :
    ∀ (tasks : List String) (n : Nat) (s : CrawlState),
      (tasks.foldl (fun acc url =>
          let r := extractArticleCall env acc.2 url
          (if r.1.isSome then acc.1 + 1 else acc.1, r.2)) (n, s)).1 ≤ n + tasks.length ∧
      (tasks.foldl (fun acc url =>
          let r := extractArticleCall env acc.2 url
          (if r.1.isSome then acc.1 + 1 else acc.1, r.2)) (n, s)).2.total_scraped = s.total_scraped ∧
      (tasks.foldl (fun acc url =>
          let r := extractArticleCall env acc.2 url
          (if r.1.isSome then acc.1 + 1 else acc.1, r.2)) (n, s)).2.depth = s.depth ∧
      (tasks.foldl (fun acc url =>
          let r := extractArticleCall env acc.2 url
          (if r.1.isSome then acc.1 + 1 else acc.1, r.2)) (n, s)).2.queue = s.queue ∧
      (tasks.foldl (fun acc url =>
          let r := extractArticleCall env acc.2 url
          (if r.1.isSome then acc.1 + 1 else acc.1, r.2)) (n, s)).2.seen_urls = s.seen_urls := by
  intro tasks
  induction tasks with
  | nil => intro n s; exact ⟨Nat.le_add_right n 0, rfl, rfl, rfl, rfl⟩
  | cons u rest ih =>
    intro n s
    simp only [List.foldl_cons, extractArticleCall]
    obtain ⟨hc, ht, hd, hq, hs⟩ :=
      ih (if (env.fetch s.fetchStep u).isSome then n + 1 else n)
        { s with fetchStep := s.fetchStep + 1 }
    refine ⟨le_trans hc ?_, ht, hd, hq, hs⟩
    split <;> (simp only [List.length_cons]; omega)

theorem processRetryQueue_bound (env : CrawlEnv) (s : CrawlState) (k : Nat) :
    (processRetryQueue env s k).1 ≤ k ∧
    (processRetryQueue env s k).2.total_scraped = s.total_scraped ∧
    (processRetryQueue env s k).2.depth = s.depth ∧
    (processRetryQueue env s k).2.queue = s.queue ∧
    (processRetryQueue env s k).2.seen_urls = s.seen_urls := by
  unfold processRetryQueue
  obtain ⟨hc, ht, hd, hq, hs⟩ :=
    foldl_retry_bound env ((env.ready s.retryRound).take k) 0
      { s with retryRound := s.retryRound + 1 }
  refine ⟨le_trans hc ?_, ht, hd, hq, hs⟩
  have := List.length_take_le k (env.ready s.retryRound)
  omega

theorem crawlLinks_bound (env : CrawlEnv) (max_pages : Nat) :
    ∀ (links : List String) (s : CrawlState) (nq : List String),
      s.total_scraped ≤ max_pages →
      (crawlLinks env max_pages links (s, nq)).1.total_scraped ≤ max_pages ∧
      (crawlLinks env max_pages links (s, nq)).1.depth = s.depth ∧
      (crawlLinks env max_pages links (s, nq)).1.queue = s.queue := by
  intro links
  induction links with
  | nil => intro s nq h; exact ⟨h, rfl, rfl⟩
  | cons link rest ih =>
    intro s nq h
    simp only [crawlLinks]
    by_cases hskip : s.seen_urls.contains link = true ∨ max_pages ≤ s.total_scraped
    · rw [if_pos hskip]; exact ih s nq h
    · rw [if_neg hskip]
      have hlt : s.total_scraped < max_pages := by
        rcases not_or.mp hskip with ⟨-, h2⟩; omega
      simp only [extractArticleCall]
      cases hfetch : env.fetch s.fetchStep link with
      | some article =>
        simp only [hfetch]
        by_cases hbreak : max_pages ≤ s.total_scraped + 1
        · rw [if_pos (show max_pages ≤ s.total_scraped + 1 from hbreak)]
          exact ⟨show s.total_scraped + 1 ≤ max_pages by omega, rfl, rfl⟩
        · rw [if_neg (show ¬ max_pages ≤ s.total_scraped + 1 from hbreak)]
          exact ih _ _ (show s.total_scraped + 1 ≤ max_pages by omega)
      | none =>
        simp only [hfetch]
        rw [if_neg (show ¬ max_pages ≤ s.total_scraped by omega)]
        exact ih _ _ (show s.total_scraped ≤ max_pages by omega)

theorem drainRetries_bound (env : CrawlEnv) (max_pages : Nat) (s : CrawlState)
    (h : s.total_scraped ≤ max_pages) :
    (drainRetries env max_pages s).total_scraped ≤ max_pages ∧
    (drainRetries env max_pages s).depth = s.depth ∧
    (drainRetries env max_pages s).queue = s.queue := by
  unfold drainRetries
  obtain ⟨rc, rt, rd, rq, rs⟩ :=
    processRetryQueue_bound env s (min 5 (max_pages - s.total_scraped))
  have h5 : min 5 (max_pages - s.total_scraped) ≤ max_pages - s.total_scraped :=
    Nat.min_le_right _ _
  exact ⟨by show _ + _ ≤ max_pages; omega, rd, rq⟩

theorem crawlLevel_bound (env : CrawlEnv) (max_pages : Nat) (s : CrawlState)
    (h : s.total_scraped < max_pages) :
    (crawlLevel env max_pages s).total_scraped ≤ max_pages ∧
    (crawlLevel env max_pages s).depth = s.depth + 1 := by
  unfold crawlLevel
  obtain ⟨d1, d2, d3⟩ := drainRetries_bound env max_pages s (le_of_lt h)
  obtain ⟨i1, i2, i3⟩ :=
    crawlLinks_bound env max_pages (drainRetries env max_pages s).queue
      (drainRetries env max_pages s) [] d1
  set inner := crawlLinks env max_pages (drainRetries env max_pages s).queue
      (drainRetries env max_pages s, []) with hinner
  by_cases hcont : ({ inner.1 with
      queue := inner.2.eraseDups.filter (fun l => ¬ inner.1.seen_urls.contains l)
      depth := inner.1.depth + 1 } : CrawlState).total_scraped < max_pages
  · rw [if_pos hcont]
    obtain ⟨e1, e2, e3⟩ :=
      drainRetries_bound env max_pages
        { inner.1 with
            queue := inner.2.eraseDups.filter (fun l => ¬ inner.1.seen_urls.contains l)
            depth := inner.1.depth + 1 }
        (le_of_lt hcont)
    refine ⟨e1, ?_⟩
    rw [e2]
    show inner.1.depth + 1 = s.depth + 1
    rw [i2, d2]
  · rw [if_neg hcont]
    refine ⟨i1, ?_⟩
    show inner.1.depth + 1 = s.depth + 1
    rw [i2, d2]

theorem crawlLevels_bound (env : CrawlEnv) (max_pages : Nat) :
    ∀ (fuel : Nat) (s : CrawlState), s.total_scraped ≤ max_pages →
      (crawlLevels env max_pages fuel s).total_scraped ≤ max_pages ∧
      (crawlLevels env max_pages fuel s).depth ≤ s.depth + fuel ∧
      ((crawlLevels env max_pages fuel s).queue = [] ∨
        s.depth + fuel ≤ (crawlLevels env max_pages fuel s).depth ∨
        max_pages ≤ (crawlLevels env max_pages fuel s).total_scraped) := by
  intro fuel
  induction fuel with
  | zero =>
    intro s h
    exact ⟨h, Nat.le_add_right _ 0, Or.inr (Or.inl (Nat.le_add_right _ 0))⟩
  | succ fuel ih =>
    intro s h
    simp only [crawlLevels]
    by_cases hg : s.queue.isEmpty = true ∨ max_pages ≤ s.total_scraped
    · rw [if_pos hg]
      refine ⟨h, Nat.le_add_right _ _, ?_⟩
      rcases hg with hg | hg
      · exact Or.inl (List.isEmpty_iff.mp hg)
      · exact Or.inr (Or.inr hg)
    · rw [if_neg hg]
      have hlt : s.total_scraped < max_pages := by
        rcases not_or.mp hg with ⟨-, h2⟩; omega
      obtain ⟨b1, b2⟩ := crawlLevel_bound env max_pages s hlt
      obtain ⟨c1, c2, c3⟩ := ih (crawlLevel env max_pages s) b1
      refine ⟨c1, by omega, ?_⟩
      rcases c3 with c3 | c3 | c3
      · exact Or.inl c3
      · exact Or.inr (Or.inl (by omega))
      · exact Or.inr (Or.inr c3)

/-- C5: for every environment of fetch results and retry queues,
`run_full_scraper` scrapes at most `max_pages` pages and advances
through at most `max_depth` levels, and the level loop has terminated
only with the queue empty, the depth budget exhausted, or the page
budget reached. -/
theorem run_full_scraper_bounded (env : CrawlEnv) (max_depth max_pages : Nat) :
    (run_full_scraper env max_depth max_pages).2.total_scraped ≤ max_pages ∧
    (run_full_scraper env max_depth max_pages).2.depth ≤ max_depth ∧
    ((run_full_scraper env max_depth max_pages).2.queue = [] ∨
      (run_full_scraper env max_depth max_pages).2.depth = max_depth ∨
      max_pages ≤ (run_full_scraper env max_depth max_pages).2.total_scraped) := by
  unfold run_full_scraper
  by_cases he : env.initial_links.isEmpty = true
  · rw [if_pos he]
    exact ⟨Nat.zero_le _, Nat.zero_le _, Or.inl (List.isEmpty_iff.mp he)⟩
  · rw [if_neg he]
    obtain ⟨c1, c2, c3⟩ :=
      crawlLevels_bound env max_pages max_depth { queue := env.initial_links }
        (Nat.zero_le _)
    refine ⟨c1, by simpa using c2, ?_⟩
    rcases c3 with c3 | c3 | c3
    · exact Or.inl c3
    · refine Or.inr (Or.inl ?_)
      have c2' : (crawlLevels env max_pages max_depth { queue := env.initial_links }).depth
          ≤ max_depth := by simpa using c2
      have c3' : max_depth ≤ (crawlLevels env max_pages max_depth { queue := env.initial_links }).depth := by
        simpa using c3
      have heq : (crawlLevels env max_pages max_depth { queue := env.initial_links }).depth
          = max_depth := by omega
      exact heq
    · exact Or.inr (Or.inr c3)

end Crawl
